import Mathlib

/-!
Verification development for the qtex repository (files QIconSet.h and
QSettingsContainer.h), as a shallow embedding in Lean 4.

Modelling conventions:
- C++ machine `int` values are modelled as `Int`; C++ integer division
  truncates toward zero, which is `Int.tdiv`.
- `QPoint` is a pair of `Int` with Qt semantics for `isNull` (both
  components zero).
- `QPixmap` is modelled as a width, a height and a total pixel function;
  a null pixmap (e.g. a failed resource load) is the 0 by 0 pixmap.
  `QPixmap.copy x y w h` is the deep sub-image copy: pixel (i, j) of the
  copy is pixel (x + i, y + j) of the source, which is exact for
  rectangles inside the source (the only case the grid extraction uses).
- `QIcon` is either the default-constructed (invalid/null) icon, or an
  icon wrapping a pixmap, as produced by the `QIcon(QPixmap)` constructor.
- Fallible or undefined-behaviour steps are modelled in `Option`:
  `none` stands for undefined behaviour (out-of-bounds `std::vector`
  `operator[]` access, integer division by zero). `Q_ASSERT` is a
  debug-build-only check with no release-build effect and is recorded
  in comments only.
-/

namespace Qtex

/-- Qt `QPoint`: a pair of machine integers. -/
structure QPoint where
  x : Int
  y : Int
deriving DecidableEq, Repr

/-- Qt `QPoint::isNull`: true when both coordinates are zero. -/
def QPoint.isNull (p : QPoint) : Bool :=
  p.x == 0 && p.y == 0

/-- Qt `QPixmap`, modelled as dimensions plus a total pixel function.
A pixmap that failed to load is the null pixmap (zero by zero). -/
structure QPixmap where
  width : Int
  height : Int
  pix : Int → Int → Nat

/-- Qt `QPixmap::isNull`: the null pixmap has zero width and height. -/
def QPixmap.isNull (p : QPixmap) : Bool :=
  p.width == 0 && p.height == 0

/-- Qt `QPixmap::copy(x, y, w, h)`: a deep copy of the w by h rectangle of
the pixmap whose top-left corner is (x, y). -/
def QPixmap.copy (p : QPixmap) (x y w h : Int) : QPixmap :=
  { width := w, height := h, pix := fun i j => p.pix (x + i) (y + j) }

/-- Qt `QIcon`: `invalid` is the default-constructed icon (the member
`m_invalidIcon` of `QIconSet`); `ofPixmap` is `QIcon(QPixmap)`. -/
inductive QIcon where
  | invalid : QIcon
  | ofPixmap : QPixmap → QIcon

/-- C++ `int` division truncates toward zero and is undefined on a zero
divisor; `none` models the undefined case. -/
def idiv? (a b : Int) : Option Int :=
  if b = 0 then none else some (a.tdiv b)

/-- The state of a `qtex::QIconSet` object (QIconSet.h, lines 212-217).
`m_invalidIcon` is always the default-constructed icon and is kept
implicit (`QIcon.invalid`). -/
structure QIconSet where
  m_iconset : QPixmap
  m_icons : List QIcon
  m_matrixSize : QPoint
  m_iconSize : QPoint

/-- The icon extracted for grid cell (x, y) in `QIconSet::setup`
(QIconSet.h, lines 241-244): a copy of the `m_iconSize`-sized rectangle
of the source at pixel origin (m_iconSize.x * x, m_iconSize.y * y). -/
def cellIcon (src : QPixmap) (isz : QPoint) (x y : Nat) : QIcon :=
  QIcon.ofPixmap (src.copy (isz.x * (x : Int)) (isz.y * (y : Int)) isz.x isz.y)

/-- The extraction loop of `QIconSet::setup` (QIconSet.h, lines 235-246):
rows `y` outer in [0, rows), columns `x` inner in [0, cols), appending the
cell copies in that order. A negative loop bound in the C++ code runs zero
iterations, which `Int.toNat` reproduces at the call site. The
`m_icons.reserve` call has no observable effect and is not modelled. -/
def extractIcons (src : QPixmap) (isz : QPoint) (cols rows : Nat) : List QIcon :=
  (List.range rows).flatMap fun y =>
    (List.range cols).map fun x => cellIcon src isz x y

/-- The icon-size resolution step of `QIconSet::setup` (QIconSet.h, lines
227-232).  The C++ body reads `iconSize.isNull()`, `colRow.x()` and
`colRow.y()`; those identifiers are the constructor parameter names, which
are not in scope inside `setup` — the members `m_iconSize` and
`m_matrixSize` holding exactly those constructor arguments are the only
referents they can denote, and are used here. A zero column or row count
makes the auto derivation divide by zero (undefined behaviour, `none`). -/
def resolveIconSize (src : QPixmap) (colRow isz : QPoint) : Option QPoint :=
  if isz.isNull then do
    let w ← idiv? src.width colRow.x
    let h ← idiv? src.height colRow.y
    pure (QPoint.mk w h)
  else pure isz

/-- `QIconSet::setup` (QIconSet.h, lines 219-247). If the source pixmap is
null, `Q_ASSERT(false)` fires in debug builds and in release builds the
function returns early leaving the object unchanged (`m_icons` stays
empty). Otherwise the icon size is resolved and the grid is extracted. -/
def setup (s0 : QIconSet) : Option QIconSet :=
  if s0.m_iconset.isNull then
    some s0
  else do
    let isz ← resolveIconSize s0.m_iconset s0.m_matrixSize s0.m_iconSize
    pure { s0 with
           m_iconSize := isz,
           m_icons := extractIcons s0.m_iconset isz
                        s0.m_matrixSize.x.toNat s0.m_matrixSize.y.toNat }

/-- The four-argument constructor `QIconSet(path, colRow, iconSize, parent)`
(QIconSet.h, lines 50-58): initialises the members from the arguments
(`m_icons` default-constructs empty) and runs `setup`. Loading the resource
path into a pixmap is delegated to Qt; the already-loaded pixmap is the
input here. -/
def mkQIconSet (src : QPixmap) (colRow iconSize : QPoint) : Option QIconSet :=
  setup { m_iconset := src, m_icons := [],
          m_matrixSize := colRow, m_iconSize := iconSize }

/-- The auto-size constructor `QIconSet(path, colRow, parent)` (QIconSet.h,
lines 67-71): delegates with `QPoint()` as the icon size. -/
def mkQIconSetAuto (src : QPixmap) (colRow : QPoint) : Option QIconSet :=
  mkQIconSet src colRow (QPoint.mk 0 0)

/-- The single-row constructor `QIconSet(path, count, iconSize, parent)`
(QIconSet.h, lines 81-85): delegates with `QPoint(count, 1)`. -/
def mkQIconSetCount (src : QPixmap) (count : Int) (iconSize : QPoint) :
    Option QIconSet :=
  mkQIconSet src (QPoint.mk count 1) iconSize

/-- The single-row auto-size constructor `QIconSet(path, count, parent)`
(QIconSet.h, lines 94-98): delegates with `QPoint(count, 1)` and
`QPoint()`. -/
def mkQIconSetCountAuto (src : QPixmap) (count : Int) : Option QIconSet :=
  mkQIconSet src (QPoint.mk count 1) (QPoint.mk 0 0)

/-- `QIconSet::isValid(int index)` (QIconSet.h, lines 189-192):
`index < (int)m_icons.size()`. Note there is no lower bound check. -/
def QIconSet.isValid1 (s : QIconSet) (index : Int) : Bool :=
  index < (s.m_icons.length : Int)

/-- `QIconSet::getIcon(int index)` (QIconSet.h, lines 115-123).
`Q_ASSERT(isValid(index))` is debug-only. At runtime: if
`index >= (int)m_icons.size()` the sentinel `m_invalidIcon` is returned;
otherwise `m_icons[index]` is returned — for a negative index that
`std::vector::operator[]` access is out of bounds (undefined behaviour,
modelled `none`). -/
def QIconSet.getIcon1 (s : QIconSet) (index : Int) : Option QIcon :=
  if (s.m_icons.length : Int) ≤ index then some QIcon.invalid
  else if index < 0 then none
  else s.m_icons[index.toNat]?

/-- `QIconSet::toIndex` (QIconSet.h, lines 254-257):
`row * m_matrixSize.x() + col`. -/
def QIconSet.toIndex (s : QIconSet) (col row : Int) : Int :=
  row * s.m_matrixSize.x + col

/-- `QIconSet::isValid(int col, int row)` (QIconSet.h, lines 178-181):
`toIndex(col, row) < (int)m_icons.size()`. No per-axis bounds check. -/
def QIconSet.isValid2 (s : QIconSet) (col row : Int) : Bool :=
  s.toIndex col row < (s.m_icons.length : Int)

/-- `QIconSet::getIcon(int col, int row)` (QIconSet.h, lines 148-153).
`Q_ASSERT(isValid(col, row))` is debug-only; at runtime the body is
`return m_icons[toIndex(col, row)];` with no defensive bounds check, so a
computed index outside [0, size) is an out-of-bounds
`std::vector::operator[]` access (undefined behaviour, modelled `none`). -/
def QIconSet.getIcon2 (s : QIconSet) (col row : Int) : Option QIcon :=
  if s.toIndex col row < 0 then none
  else s.m_icons[(s.toIndex col row).toNat]?

/-- `QIconSet::getIconSize` (QIconSet.h, lines 198-201). -/
def QIconSet.getIconSize (s : QIconSet) : QPoint :=
  s.m_iconSize

/-- `QIconSet::getIconRadius` (QIconSet.h, lines 207-210):
`m_iconSize.x() * 0.5` converted to `int`, i.e. truncation toward zero,
which for machine-int magnitudes equals `Int.tdiv` by 2. -/
def QIconSet.getIconRadius (s : QIconSet) : Int :=
  s.m_iconSize.x.tdiv 2

/-! ### Shape of the extracted icon table -/

/-- The nested row-outer column-inner loop produces exactly the row-major
flattening: entry i is the cell at column i mod cols, row i div cols. -/
theorem extractIcons_eq_map (src : QPixmap) (isz : QPoint) (cols rows : Nat) :
    extractIcons src isz cols rows =
      (List.range (rows * cols)).map
        (fun i => cellIcon src isz (i % cols) (i / cols)) := by
  induction rows with
  | zero => simp [extractIcons]
  | succ n ih =>
    rw [extractIcons, List.range_succ, List.flatMap_append, ← extractIcons,
        ih, Nat.succ_mul, List.range_add, List.map_append, List.map_map,
        List.flatMap_cons, List.flatMap_nil, List.append_nil]
    congr 1
    refine (List.map_congr_left ?_).symm
    intro x hx
    have hxc : x < cols := List.mem_range.mp hx
    have hpos : 0 < cols := Nat.lt_of_le_of_lt (Nat.zero_le x) hxc
    simp only [Function.comp]
    have hmod : (n * cols + x) % cols = x := by
      rw [Nat.mul_comm n cols, Nat.mul_add_mod, Nat.mod_eq_of_lt hxc]
    have hdiv : (n * cols + x) / cols = n := by
      rw [Nat.mul_comm n cols, Nat.mul_add_div hpos, Nat.div_eq_of_lt hxc,
          Nat.add_zero]
    rw [hmod, hdiv]

/-- The extraction loop produces rows * cols entries. -/
theorem extractIcons_length (src : QPixmap) (isz : QPoint) (cols rows : Nat) :
    (extractIcons src isz cols rows).length = rows * cols := by
  rw [extractIcons_eq_map]
  simp

/-- Entry i of the extracted table, for i in range. -/
theorem extractIcons_getElem (src : QPixmap) (isz : QPoint) (cols rows : Nat)
    (i : Nat) (h : i < rows * cols) :
    (extractIcons src isz cols rows)[i]? =
      some (cellIcon src isz (i % cols) (i / cols)) := by
  rw [extractIcons_eq_map]
  simp [List.getElem?_range h]

/-! ### Construction lemmas -/

/-- Construction with a loaded source and an explicit (non-null) icon size:
the state that setup produces. -/
theorem mkQIconSet_eq (src : QPixmap) (colRow isz : QPoint)
    (hsrc : src.isNull = false) (hisz : isz.isNull = false) :
    mkQIconSet src colRow isz =
      some { m_iconset := src,
             m_icons := extractIcons src isz colRow.x.toNat colRow.y.toNat,
             m_matrixSize := colRow, m_iconSize := isz } := by
  simp [mkQIconSet, setup, resolveIconSize, hsrc, hisz]

/-- Construction with a loaded source in auto-size mode with nonzero grid
counts: the icon size resolves to the truncated quotients of the source
dimensions by the grid counts. -/
theorem mkQIconSetAuto_eq (src : QPixmap) (colRow : QPoint)
    (hsrc : src.isNull = false) (hx : colRow.x ≠ 0) (hy : colRow.y ≠ 0) :
    mkQIconSetAuto src colRow =
      some { m_iconset := src,
             m_icons := extractIcons src
                 (QPoint.mk (src.width.tdiv colRow.x) (src.height.tdiv colRow.y))
                 colRow.x.toNat colRow.y.toNat,
             m_matrixSize := colRow,
             m_iconSize := QPoint.mk (src.width.tdiv colRow.x)
                             (src.height.tdiv colRow.y) } := by
  simp [mkQIconSetAuto, mkQIconSet, setup, resolveIconSize, idiv?,
        QPoint.isNull, hsrc, hx, hy]

/-- Whatever the icon-size mode, a successful construction from a loaded
source stores the source, the grid counts, and the table extracted with
the resolved icon size. -/
theorem mk_fields (src : QPixmap) (colRow isz : QPoint) (s : QIconSet)
    (hsrc : src.isNull = false) (h : mkQIconSet src colRow isz = some s) :
    s.m_iconset = src ∧ s.m_matrixSize = colRow ∧
    s.m_icons = extractIcons src s.m_iconSize colRow.x.toNat colRow.y.toNat := by
  by_cases hisz : isz.isNull = true
  · rw [mkQIconSet, setup] at h
    simp only [hsrc, Bool.false_eq_true, if_false] at h
    rw [resolveIconSize] at h
    simp only [hisz, if_true, idiv?] at h
    by_cases hx : colRow.x = 0
    · simp [hx] at h
    · by_cases hy : colRow.y = 0
      · simp [hx, hy] at h
      · simp only [hx, hy, if_false, Option.bind_eq_bind, Option.some_bind,
                   Option.pure_def] at h
        rw [Option.some.injEq] at h
        subst h
        exact ⟨rfl, rfl, rfl⟩
  · rw [Bool.not_eq_true] at hisz
    rw [mkQIconSet_eq src colRow isz hsrc hisz, Option.some.injEq] at h
    subst h
    exact ⟨rfl, rfl, rfl⟩

/-- The table length of a successfully constructed set is
rows * columns (as naturals). -/
theorem mk_length (src : QPixmap) (colRow isz : QPoint) (s : QIconSet)
    (hsrc : src.isNull = false) (h : mkQIconSet src colRow isz = some s) :
    s.m_icons.length = colRow.y.toNat * colRow.x.toNat := by
  obtain ⟨-, -, hicons⟩ := mk_fields src colRow isz s hsrc h
  rw [hicons, extractIcons_length]

/-! ### Concrete instances -/

/-- A loaded (non-null) 6 by 4 source pixmap. -/
def srcEx : QPixmap :=
  { width := 6, height := 4, pix := fun i j => (i + j).toNat }

/-- The icon set built from srcEx with a 3 by 2 grid of 2 by 2 icons.
This is the state produced both by explicit-size construction with
QPoint(2, 2) and by auto-size construction (6 / 3 = 2, 4 / 2 = 2). -/
def setEx : QIconSet :=
  { m_iconset := srcEx,
    m_icons := extractIcons srcEx (QPoint.mk 2 2) 3 2,
    m_matrixSize := QPoint.mk 3 2,
    m_iconSize := QPoint.mk 2 2 }

theorem mk_setEx :
    mkQIconSet srcEx (QPoint.mk 3 2) (QPoint.mk 2 2) = some setEx := rfl

theorem mkAuto_setEx : mkQIconSetAuto srcEx (QPoint.mk 3 2) = some setEx := rfl

/-! ### Claims -/

/-- C3 (confirmed): for every valid coordinate pair with
0 <= col < columns and 0 <= row < rows, the 2D lookup converts the
coordinates by index = row * columns + col, and the icon returned by
get(col, row) equals the icon returned by get(row * columns + col). -/
theorem C3_index_coordinate_consistency (src : QPixmap) (colRow isz : QPoint)
    (s : QIconSet) (hsrc : src.isNull = false)
    (h : mkQIconSet src colRow isz = some s)
    (col row : Int) (hc0 : 0 ≤ col) (hc1 : col < colRow.x)
    (hr0 : 0 ≤ row) (hr1 : row < colRow.y) :
    s.toIndex col row = row * colRow.x + col ∧
    s.getIcon2 col row = s.getIcon1 (row * colRow.x + col) := by
  obtain ⟨-, hmat, hicons⟩ := mk_fields src colRow isz s hsrc h
  have hxpos : 0 < colRow.x := lt_of_le_of_lt hc0 hc1
  have hypos : 0 < colRow.y := lt_of_le_of_lt hr0 hr1
  have hti : s.toIndex col row = row * colRow.x + col := by
    rw [QIconSet.toIndex, hmat]
  have hidx0 : 0 ≤ row * colRow.x + col :=
    add_nonneg (mul_nonneg hr0 hxpos.le) hc0
  have hidxlt : row * colRow.x + col < colRow.x * colRow.y := by
    have h1 : (row + 1) * colRow.x ≤ colRow.y * colRow.x :=
      mul_le_mul_of_nonneg_right (Int.add_one_le_iff.mpr hr1) hxpos.le
    rw [add_mul, one_mul] at h1
    linarith
  have hlenInt : (s.m_icons.length : Int) = colRow.x * colRow.y := by
    rw [hicons, extractIcons_length]
    push_cast [Int.toNat_of_nonneg hxpos.le, Int.toNat_of_nonneg hypos.le]
    ring
  have hlt : row * colRow.x + col < (s.m_icons.length : Int) := by
    rw [hlenInt]; exact hidxlt
  refine ⟨hti, ?_⟩
  rw [QIconSet.getIcon2, hti, QIconSet.getIcon1,
      if_neg (not_lt.mpr hidx0), if_neg (not_le.mpr hlt)]

/-- C3 witness: the constructed 3 by 2 example at (col, row) = (1, 1). -/
theorem C3_witness :
    srcEx.isNull = false ∧ (0:Int) ≤ 1 ∧ (1:Int) < 3 ∧ (1:Int) < 2 ∧
    setEx.toIndex 1 1 = 1 * 3 + 1 ∧
    setEx.getIcon2 1 1 = setEx.getIcon1 (1 * 3 + 1) :=
  have h := C3_index_coordinate_consistency srcEx (QPoint.mk 3 2)
    (QPoint.mk 2 2) setEx rfl mk_setEx 1 1 (by decide) (by decide)
    (by decide) (by decide)
  ⟨rfl, by decide, by decide, by decide, h.1, h.2⟩

/-- C10 (confirmed): isValid(col, row) checks only the computed linear
index row * columns + col against the table length, with no per-axis
bounds check: every pair whose computed index is below columns * rows is
reported valid (no constraint that col < columns or that col, row are
nonnegative); in the concrete 3 by 2 example, isValid(5, 0) is true
although column 5 does not exist, and get(5, 0) returns the icon stored
for grid position (2, 1). -/
theorem C10_isValid2_linear_only (src : QPixmap) (colRow isz : QPoint)
    (s : QIconSet) (hsrc : src.isNull = false)
    (h : mkQIconSet src colRow isz = some s)
    (hx : 0 ≤ colRow.x) (hy : 0 ≤ colRow.y) (col row : Int)
    (hidx : row * colRow.x + col < colRow.x * colRow.y) :
    s.isValid2 col row = true ∧
    setEx.isValid2 5 0 = true ∧
    setEx.getIcon2 5 0 = setEx.getIcon1 (setEx.toIndex 2 1) := by
  obtain ⟨-, hmat, hicons⟩ := mk_fields src colRow isz s hsrc h
  have hlenInt : (s.m_icons.length : Int) = colRow.x * colRow.y := by
    rw [hicons, extractIcons_length]
    push_cast [Int.toNat_of_nonneg hx, Int.toNat_of_nonneg hy]
    ring
  refine ⟨?_, rfl, rfl⟩
  rw [QIconSet.isValid2, QIconSet.toIndex, hmat, hlenInt]
  exact decide_eq_true hidx

/-- C10 witness: the 3 by 2 example at the out-of-axis pair (5, 0),
whose computed linear index 0 * 3 + 5 = 5 is below 3 * 2 = 6. -/
theorem C10_witness :
    srcEx.isNull = false ∧ (0:Int) * 3 + 5 < (3:Int) * 2 ∧
    setEx.isValid2 5 0 = true ∧
    setEx.getIcon2 5 0 = setEx.getIcon1 (setEx.toIndex 2 1) :=
  have h := C10_isValid2_linear_only srcEx (QPoint.mk 3 2) (QPoint.mk 2 2)
    setEx rfl mk_setEx (by decide) (by decide) 5 0 (by decide)
  ⟨rfl, by decide, h.2.1, h.2.2⟩

/-- C2 counterexample: on the constructed 3 by 2 example, isValid(-1) is
true — the code checks only index < size, while the claim requires
isValid to be true exactly when 0 <= index < columns * rows — and
get(-1) is an unchecked out-of-bounds read (modelled none), not the
sentinel the claim requires outside [0, length). -/
theorem C2_counterexample :
    setEx.isValid1 (-1) = true ∧ setEx.getIcon1 (-1) = none ∧
    setEx.getIcon1 (-1) ≠ some QIcon.invalid := by
  refine ⟨rfl, rfl, ?_⟩
  intro hc
  rw [show setEx.getIcon1 (-1) = none from rfl] at hc
  exact Option.noConfusion hc

/-- C2 amended (corrected): isValid(index) is true exactly when
index < columns * rows, with no lower-bound check (negative indices are
reported valid, and the debug assertion in get checks only this
one-sided condition); for every index >= columns * rows, get(index)
returns the sentinel and isValid(index) is false; for a negative index,
get(index) performs an unchecked out-of-bounds read instead of returning
the sentinel. -/
theorem C2_isValid_get_bounds (src : QPixmap) (colRow isz : QPoint)
    (s : QIconSet) (hsrc : src.isNull = false)
    (hx : 0 ≤ colRow.x) (hy : 0 ≤ colRow.y)
    (h : mkQIconSet src colRow isz = some s) (index : Int) :
    (s.isValid1 index = true ↔ index < colRow.x * colRow.y) ∧
    (colRow.x * colRow.y ≤ index →
      s.getIcon1 index = some QIcon.invalid ∧ s.isValid1 index = false) ∧
    (index < 0 → s.getIcon1 index = none) := by
  have hlenInt : (s.m_icons.length : Int) = colRow.x * colRow.y := by
    rw [mk_length src colRow isz s hsrc h]
    push_cast [Int.toNat_of_nonneg hx, Int.toNat_of_nonneg hy]
    ring
  refine ⟨?_, ?_, ?_⟩
  · simp only [QIconSet.isValid1, hlenInt, decide_eq_true_eq]
  · intro hge
    have hle2 : (s.m_icons.length : Int) ≤ index := by
      rw [hlenInt]; exact hge
    constructor
    · rw [QIconSet.getIcon1, if_pos hle2]
    · simp only [QIconSet.isValid1, hlenInt, decide_eq_false_iff_not]
      exact not_lt.mpr hge
  · intro hneg
    have hnotle : ¬ ((s.m_icons.length : Int) ≤ index) := fun hle =>
      absurd (lt_of_le_of_lt hle hneg) (not_lt.mpr (Int.natCast_nonneg _))
    rw [QIconSet.getIcon1, if_neg hnotle, if_pos hneg]

/-- C2 witness: the constructed 3 by 2 example at index 7 >= 6. -/
theorem C2_witness :
    srcEx.isNull = false ∧
    (setEx.isValid1 7 = true ↔ (7:Int) < 3 * 2) ∧
    ((3:Int) * 2 ≤ 7 →
      setEx.getIcon1 7 = some QIcon.invalid ∧ setEx.isValid1 7 = false) ∧
    ((7:Int) < 0 → setEx.getIcon1 7 = none) :=
  have h := C2_isValid_get_bounds srcEx (QPoint.mk 3 2) (QPoint.mk 2 2)
    setEx rfl (by decide) (by decide) mk_setEx 7
  ⟨rfl, h.1, h.2.1, h.2.2⟩

/-- C1 counterexample: on the constructed 3 by 2 example (table length 6),
the out-of-range pair (col, row) = (0, 2) has linear index 6; the linear
form get(6) returns the sentinel, but the 2D form get(0, 2) is an
unchecked out-of-bounds vector access (modelled none), not the sentinel
the claim requires. -/
theorem C1_counterexample :
    setEx.getIcon1 6 = some QIcon.invalid ∧
    setEx.getIcon2 0 2 = none ∧
    setEx.getIcon2 0 2 ≠ some QIcon.invalid := by
  refine ⟨rfl, rfl, ?_⟩
  intro hc
  rw [show setEx.getIcon2 0 2 = none from rfl] at hc
  exact Option.noConfusion hc

/-- C1 amended (corrected): for every pair (col, row) whose computed
linear index row * columns + col is at least the table length, the 2D
lookup get(col, row) does NOT apply the linear form sentinel policy: it
indexes the table unchecked (out of bounds in release builds, modelled
none; debug builds stop at the assertion), while the linear-index form
get(index) does return the InvalidIconSentinel at that index. -/
theorem C1_get2_out_of_range (s : QIconSet) (col row : Int)
    (hout : (s.m_icons.length : Int) ≤ s.toIndex col row) :
    s.getIcon2 col row = none ∧
    s.getIcon1 (s.toIndex col row) = some QIcon.invalid := by
  have h0 : 0 ≤ s.toIndex col row := le_trans (Int.natCast_nonneg _) hout
  constructor
  · rw [QIconSet.getIcon2, if_neg (not_lt.mpr h0)]
    apply List.getElem?_eq_none
    omega
  · rw [QIconSet.getIcon1, if_pos hout]

/-- C1 witness: the 3 by 2 example at (col, row) = (0, 2), linear
index 6, table length 6. -/
theorem C1_witness :
    (setEx.m_icons.length : Int) ≤ setEx.toIndex 0 2 ∧
    setEx.getIcon2 0 2 = none ∧
    setEx.getIcon1 (setEx.toIndex 0 2) = some QIcon.invalid :=
  have h := C1_get2_out_of_range setEx 0 2 (by decide)
  ⟨by decide, h.1, h.2⟩

/-- C4 (confirmed): after construction with a loaded source, the icon
table has exactly columns * rows entries, and entry i is the copy of the
resolved-cell-size rectangle of the source whose pixel origin is
((i mod columns) * cellWidth, (i div columns) * cellHeight) — the
row-major order produced by the row-outer column-inner extraction loop.
The embedding has no mutating operation, so length and order are fixed
for the lifetime of the object. -/
theorem C4_extraction_row_major (src : QPixmap) (colRow isz : QPoint)
    (s : QIconSet) (hsrc : src.isNull = false)
    (hx : 0 ≤ colRow.x) (hy : 0 ≤ colRow.y)
    (h : mkQIconSet src colRow isz = some s) :
    (s.m_icons.length : Int) = colRow.x * colRow.y ∧
    ∀ i : Nat, i < s.m_icons.length →
      s.m_icons[i]? = some (QIcon.ofPixmap (src.copy
        (s.m_iconSize.x * ((i % colRow.x.toNat : Nat) : Int))
        (s.m_iconSize.y * ((i / colRow.x.toNat : Nat) : Int))
        s.m_iconSize.x s.m_iconSize.y)) := by
  obtain ⟨-, -, hicons⟩ := mk_fields src colRow isz s hsrc h
  have hlen : s.m_icons.length = colRow.y.toNat * colRow.x.toNat := by
    rw [hicons, extractIcons_length]
  constructor
  · rw [hlen]
    push_cast [Int.toNat_of_nonneg hx, Int.toNat_of_nonneg hy]
    ring
  · intro i hi
    have hi2 : i < colRow.y.toNat * colRow.x.toNat := hlen ▸ hi
    rw [hicons]
    exact extractIcons_getElem src s.m_iconSize colRow.x.toNat
      colRow.y.toNat i hi2

/-- C4 witness: entry 4 of the 3 by 2 example is the cell at column
4 mod 3 = 1, row 4 div 3 = 1. -/
theorem C4_witness :
    srcEx.isNull = false ∧ (0:Int) ≤ 3 ∧ (0:Int) ≤ 2 ∧
    (setEx.m_icons.length : Int) = 3 * 2 ∧ 4 < setEx.m_icons.length ∧
    setEx.m_icons[4]? = some (QIcon.ofPixmap (srcEx.copy
      (setEx.m_iconSize.x * ((4 % (3:Int).toNat : Nat) : Int))
      (setEx.m_iconSize.y * ((4 / (3:Int).toNat : Nat) : Int))
      setEx.m_iconSize.x setEx.m_iconSize.y)) :=
  have h := C4_extraction_row_major srcEx (QPoint.mk 3 2) (QPoint.mk 2 2)
    setEx rfl (by decide) (by decide) mk_setEx
  ⟨rfl, by decide, by decide, h.1, by decide, h.2 4 (by decide)⟩

/-- C5 (confirmed): with the zero/empty cell-size marker (auto mode) and
nonzero grid counts, the resolved cell size is the pair of truncated
integer quotients of the source dimensions by the grid counts — no
rounding up. -/
theorem C5_auto_cell_size (src : QPixmap) (colRow : QPoint) (s : QIconSet)
    (hsrc : src.isNull = false) (hx : colRow.x ≠ 0) (hy : colRow.y ≠ 0)
    (h : mkQIconSetAuto src colRow = some s) :
    s.m_iconSize = QPoint.mk (src.width.tdiv colRow.x)
      (src.height.tdiv colRow.y) := by
  rw [mkQIconSetAuto_eq src colRow hsrc hx hy, Option.some.injEq] at h
  rw [← h]

/-- A 90 by 40 source and a 91 by 41 source for the C5 truncation
examples. -/
def src90 : QPixmap := { width := 90, height := 40, pix := fun i j => i.toNat + j.toNat }

def set90 : QIconSet :=
  { m_iconset := src90, m_icons := extractIcons src90 (QPoint.mk 30 20) 3 2,
    m_matrixSize := QPoint.mk 3 2, m_iconSize := QPoint.mk 30 20 }

def src91 : QPixmap := { width := 91, height := 41, pix := fun i j => i.toNat + j.toNat }

def set91 : QIconSet :=
  { m_iconset := src91, m_icons := extractIcons src91 (QPoint.mk 30 20) 3 2,
    m_matrixSize := QPoint.mk 3 2, m_iconSize := QPoint.mk 30 20 }

/-- C5 witness: a 90 by 40 source with grid (3, 2) resolves to cell size
(30, 20), and a 91 by 41 source with the same grid also resolves to
(30, 20) — truncation, not rounding. -/
theorem C5_witness :
    src90.isNull = false ∧ src91.isNull = false ∧
    mkQIconSetAuto src90 (QPoint.mk 3 2) = some set90 ∧
    mkQIconSetAuto src91 (QPoint.mk 3 2) = some set91 ∧
    set90.m_iconSize = QPoint.mk 30 20 ∧
    set91.m_iconSize = QPoint.mk 30 20 :=
  ⟨rfl, rfl, rfl, rfl,
   (C5_auto_cell_size src90 (QPoint.mk 3 2) set90 rfl (by decide)
      (by decide) rfl).trans (by decide),
   (C5_auto_cell_size src91 (QPoint.mk 3 2) set91 rfl (by decide)
      (by decide) rfl).trans (by decide)⟩

/-- C6 (confirmed): when the source image failed to load (null pixmap),
construction hits Q_ASSERT(false) in debug builds, and in release builds
returns normally — no exception, no crash — leaving the object with an
empty icon table; every subsequent linear-index lookup at a nonnegative
index returns the InvalidIconSentinel. -/
theorem C6_null_source_fail_soft (src : QPixmap) (colRow isz : QPoint)
    (hsrc : src.isNull = true) :
    ∃ s, mkQIconSet src colRow isz = some s ∧ s.m_icons = [] ∧
      ∀ index : Int, 0 ≤ index → s.getIcon1 index = some QIcon.invalid := by
  refine ⟨⟨src, [], colRow, isz⟩, ?_, rfl, ?_⟩
  · simp [mkQIconSet, setup, hsrc]
  · intro index hind
    have hle : ((([] : List QIcon).length : Int)) ≤ index := by
      simpa using hind
    rw [QIconSet.getIcon1, if_pos hle]

/-- A pixmap whose load failed: the null (0 by 0) pixmap. -/
def nullPix : QPixmap := { width := 0, height := 0, pix := fun i j => i.toNat + j.toNat }

/-- C6 witness: constructing from the null pixmap with grid (3, 2) and
explicit cell size (2, 2). -/
theorem C6_witness :
    nullPix.isNull = true ∧
    ∃ s, mkQIconSet nullPix (QPoint.mk 3 2) (QPoint.mk 2 2) = some s ∧
      s.m_icons = [] ∧
      ∀ index : Int, 0 ≤ index → s.getIcon1 index = some QIcon.invalid :=
  ⟨rfl, C6_null_source_fail_soft nullPix (QPoint.mk 3 2) (QPoint.mk 2 2) rfl⟩

/-- A grid with zero columns or zero rows extracts no icons. -/
theorem extractIcons_eq_nil (src : QPixmap) (isz : QPoint) (cols rows : Nat)
    (hz : cols = 0 ∨ rows = 0) : extractIcons src isz cols rows = [] := by
  rcases hz with hz | hz <;> subst hz <;> rw [extractIcons_eq_map] <;> simp

/-- Every nonnegative-index lookup on an empty table yields the
sentinel. -/
theorem getIcon1_empty (s : QIconSet) (hemp : s.m_icons = [])
    (index : Int) (h0 : 0 ≤ index) : s.getIcon1 index = some QIcon.invalid := by
  have hle : (s.m_icons.length : Int) ≤ index := by
    rw [hemp]; simpa using h0
  rw [QIconSet.getIcon1, if_pos hle]

/-- A 10 by 10 source and a 2 by 10 source for the C7 counterexample. -/
def srcTen : QPixmap :=
  { width := 10, height := 10, pix := fun i j => i.toNat + j.toNat }

def srcNarrow : QPixmap :=
  { width := 2, height := 10, pix := fun i j => i.toNat + j.toNat }

def setNarrow : QIconSet :=
  { m_iconset := srcNarrow,
    m_icons := extractIcons srcNarrow (QPoint.mk 0 5) 3 2,
    m_matrixSize := QPoint.mk 3 2, m_iconSize := QPoint.mk 0 5 }

/-- C7 counterexample: auto-size construction from the loaded 10 by 10
source with zero columns reaches the unguarded division by zero
(undefined behaviour, modelled none), not a fail-soft empty table; and
auto-size construction from a loaded 2 by 10 source with a positive
3 by 2 grid resolves cell width 2 / 3 = 0, refuting positivity of the
resolved cell size for positive grid counts. -/
theorem C7_counterexample :
    mkQIconSetAuto srcTen (QPoint.mk 0 2) = none ∧
    (mkQIconSetAuto srcNarrow (QPoint.mk 3 2) = some setNarrow ∧
      ¬ 0 < setNarrow.m_iconSize.x) :=
  ⟨rfl, rfl, by decide⟩

/-- C7 amended (corrected): constructing with zero columns or zero rows
is not guarded by any check. With an explicit non-null cell size the
result is fail-soft: an empty table whose nonnegative-index lookups all
return the sentinel. In auto-size mode, however, the size derivation
performs an unguarded division by the zero count (undefined behaviour,
modelled none). With positive grid counts the resolved cell dimensions
are positive provided the source is at least as large as the grid along
each axis; a smaller source yields a zero cell dimension. -/
theorem C7_zero_grid_behaviour (src : QPixmap) (colRow isz : QPoint)
    (hsrc : src.isNull = false) :
    (isz.isNull = false → colRow.x = 0 ∨ colRow.y = 0 →
      ∃ s, mkQIconSet src colRow isz = some s ∧ s.m_icons = [] ∧
        ∀ index : Int, 0 ≤ index → s.getIcon1 index = some QIcon.invalid) ∧
    (colRow.x = 0 ∨ colRow.y = 0 → mkQIconSetAuto src colRow = none) ∧
    (∀ s : QIconSet, 0 < colRow.x → colRow.x ≤ src.width →
      0 < colRow.y → colRow.y ≤ src.height →
      mkQIconSetAuto src colRow = some s →
      0 < s.m_iconSize.x ∧ 0 < s.m_iconSize.y) := by
  refine ⟨?_, ?_, ?_⟩
  · intro hisz hzero
    refine ⟨_, mkQIconSet_eq src colRow isz hsrc hisz, ?_, ?_⟩
    · show extractIcons src isz colRow.x.toNat colRow.y.toNat = []
      refine extractIcons_eq_nil src isz _ _ ?_
      rcases hzero with hz | hz
      · exact Or.inl (by rw [hz]; rfl)
      · exact Or.inr (by rw [hz]; rfl)
    · intro index h0
      refine getIcon1_empty _ ?_ index h0
      show extractIcons src isz colRow.x.toNat colRow.y.toNat = []
      refine extractIcons_eq_nil src isz _ _ ?_
      rcases hzero with hz | hz
      · exact Or.inl (by rw [hz]; rfl)
      · exact Or.inr (by rw [hz]; rfl)
  · intro hzero
    have hres : resolveIconSize src colRow (QPoint.mk 0 0) = none := by
      rcases hzero with hz | hz
      · simp [resolveIconSize, QPoint.isNull, idiv?, hz]
      · cases hw : idiv? src.width colRow.x with
        | none => simp [resolveIconSize, QPoint.isNull, hw]
        | some w => simp [resolveIconSize, QPoint.isNull, hw, idiv?, hz]
    rw [mkQIconSetAuto, mkQIconSet, setup]
    simp [hsrc, hres]
  · intro s hx1 hx2 hy1 hy2 hmk
    rw [mkQIconSetAuto_eq src colRow hsrc (by omega) (by omega),
        Option.some.injEq] at hmk
    subst hmk
    have hwdiv : src.width.tdiv colRow.x = src.width / colRow.x :=
      Int.tdiv_eq_ediv (by omega) (by omega)
    have hhdiv : src.height.tdiv colRow.y = src.height / colRow.y :=
      Int.tdiv_eq_ediv (by omega) (by omega)
    constructor
    · show 0 < src.width.tdiv colRow.x
      rw [hwdiv]
      have h1 : 1 ≤ src.width / colRow.x :=
        (Int.le_ediv_iff_mul_le hx1).mpr (by omega)
      omega
    · show 0 < src.height.tdiv colRow.y
      rw [hhdiv]
      have h1 : 1 ≤ src.height / colRow.y :=
        (Int.le_ediv_iff_mul_le hy1).mpr (by omega)
      omega

/-- C7 witness: grid (0, 2) with explicit cell size (2, 2) is fail-soft;
grid (0, 2) in auto mode divides by zero; the 3 by 2 auto construction
from the 6 by 4 source has positive resolved cell dimensions. -/
theorem C7_witness :
    srcEx.isNull = false ∧ (QPoint.mk 2 2).isNull = false ∧
    ((0:Int) = 0 ∨ (2:Int) = 0) ∧
    (∃ s, mkQIconSet srcEx (QPoint.mk 0 2) (QPoint.mk 2 2) = some s ∧
      s.m_icons = [] ∧
      ∀ index : Int, 0 ≤ index → s.getIcon1 index = some QIcon.invalid) ∧
    mkQIconSetAuto srcEx (QPoint.mk 0 2) = none ∧
    (0 < setEx.m_iconSize.x ∧ 0 < setEx.m_iconSize.y) :=
  have h1 := C7_zero_grid_behaviour srcEx (QPoint.mk 0 2) (QPoint.mk 2 2) rfl
  have h2 := C7_zero_grid_behaviour srcEx (QPoint.mk 3 2) (QPoint.mk 2 2) rfl
  ⟨rfl, rfl, Or.inl rfl,
   h1.1 rfl (Or.inl rfl),
   h1.2.1 (Or.inl rfl),
   h2.2.2 setEx (by decide) (by decide) (by decide) (by decide) mkAuto_setEx⟩

/-- C8 (confirmed): the single-row convenience constructors delegate to
the grid form with GridSize(count, 1), so table, cell size and both
lookup forms agree exactly; likewise for the auto-size pair. -/
theorem C8_single_row_equivalence (src : QPixmap) (count : Int)
    (isz : QPoint) :
    mkQIconSetCount src count isz =
      mkQIconSet src (QPoint.mk count 1) isz ∧
    mkQIconSetCountAuto src count =
      mkQIconSet src (QPoint.mk count 1) (QPoint.mk 0 0) ∧
    (∀ index : Int,
      (mkQIconSetCount src count isz).map (fun s => s.getIcon1 index) =
      (mkQIconSet src (QPoint.mk count 1) isz).map
        (fun s => s.getIcon1 index)) ∧
    ((mkQIconSetCount src count isz).map QIconSet.getIconSize =
      (mkQIconSet src (QPoint.mk count 1) isz).map QIconSet.getIconSize) ∧
    (∀ col row : Int,
      (mkQIconSetCount src count isz).map (fun s => s.getIcon2 col row) =
      (mkQIconSet src (QPoint.mk count 1) isz).map
        (fun s => s.getIcon2 col row)) :=
  ⟨rfl, rfl, fun _ => rfl, rfl, fun _ _ => rfl⟩

/-! ### The settings-group container (QSettingsContainer.h) -/

/-- Qt QMap, modelled as a partial mapping from keys to values. -/
def QMap (K V : Type) := K → Option V

/-- QMap::contains. -/
def QMap.contains {K V : Type} (m : QMap K V) (k : K) : Bool :=
  (m k).isSome

/-- QMap::value(key, default): the stored value, or the default when the
key is absent. -/
def QMap.value {K V : Type} (m : QMap K V) (k : K) (d : V) : V :=
  (m k).getD d

/-- QMap operator[] assignment: store v under k. -/
def QMap.insert {K V : Type} [DecidableEq K] (m : QMap K V) (k : K)
    (v : V) : QMap K V :=
  fun q => if q = k then some v else m q

/-- qtex::QSettingsContainer (QSettingsContainer.h, lines 56-159): the
group name and the data mapping from keys to QVariant values. K is the
key type T_Key; V plays the role of QVariant and is kept abstract. -/
structure QSettingsContainer (K V : Type) where
  m_group : String
  m_data : QMap K V

/-- QSettingsContainer::contains, key-type overload (lines 147-150). -/
def QSettingsContainer.contains {K V : Type} (c : QSettingsContainer K V)
    (k : K) : Bool :=
  QMap.contains c.m_data k

/-- QSettingsContainer::setValue, key-type overload (lines 133-136). -/
def QSettingsContainer.setValue {K V : Type} [DecidableEq K]
    (c : QSettingsContainer K V) (k : K) (v : V) : QSettingsContainer K V :=
  { c with m_data := QMap.insert c.m_data k v }

/-- QSettingsContainer::value, key-type overload (lines 114-121): if the
mapping does not contain the key, return the supplied default; otherwise
fetch the stored QVariant via QMap::value (whose fallback, the converted
default, is dead in this branch) and convert it to the requested type.
convOf models the implicit T-to-QVariant conversion applied to the
default; convTo models QVariant::value<T>(). -/
def QSettingsContainer.value {K V T : Type} (c : QSettingsContainer K V)
    (convOf : T → V) (convTo : V → T) (k : K) (d : T) : T :=
  if QSettingsContainer.contains c k = false then d
  else convTo (QMap.value c.m_data k (convOf d))

/-- QSettingsContainer::getGroupName (lines 152-155). -/
def QSettingsContainer.getGroupName {K V : Type}
    (c : QSettingsContainer K V) : String :=
  c.m_group

/-- C9 (confirmed): value(key, default) returns the (type-converted)
stored value when the internal mapping contains the key, and the
supplied default otherwise; contains(key) is exactly membership of the
key in the internal mapping; and after setValue(key, v), contains(key)
is true. -/
theorem C9_settings_container {K V T : Type} [DecidableEq K]
    (c : QSettingsContainer K V) (convOf : T → V) (convTo : V → T)
    (k : K) (d : T) (v : V) :
    (c.value convOf convTo k d =
      match c.m_data k with
      | some w => convTo w
      | none => d) ∧
    (c.contains k = (c.m_data k).isSome) ∧
    ((c.setValue k v).contains k = true) := by
  refine ⟨?_, rfl, ?_⟩
  · rw [QSettingsContainer.value]
    cases hk : c.m_data k with
    | none =>
        simp [QSettingsContainer.contains, QMap.contains, hk]
    | some w =>
        simp [QSettingsContainer.contains, QMap.contains, QMap.value, hk]
  · simp [QSettingsContainer.setValue, QSettingsContainer.contains,
          QMap.contains, QMap.insert]

end Qtex
